import Mathlib

/-!
Verification development for the CUDA detector cascade of OpenTLD
(src/src/libopentld/tld/detector/cuda/CuDetectorCascade.cpp).

The C++ class `CuDetectorCascade` is shallowly embedded as a Lean structure
holding the same member fields; each member function becomes a Lean function
on that structure.  C `int` becomes `ℤ`.  The two floating-point quantities
(`shift = 0.1f` and `pow(1.2, i)`) are modelled exactly as rationals kept in
numerator/denominator form over `ℤ`, with C truncation-toward-zero conversion
to `int` modelled by `Int.tdiv`; at every concrete input used in this file the
exact-rational value and the float value truncate to the same integer.
External collaborators (variance filter, ensemble classifier, NN classifier,
clustering, DetectionResult) live outside the given source file; the few
facts about them that are needed are modelled from the spec and marked so.
-/

namespace tld

namespace cuda

/-- Size record (cv::Size as used by the cascade): a width/height pair. -/
structure Size where
  width : ℤ
  height : ℤ
deriving DecidableEq, Repr

/-- Window record: the 5-tuple `(x, y, w, h, scaleIndex)` stored as one
record of `TLD_WINDOW_SIZE = 5` ints in the flat `windows` array. -/
structure Window where
  x : ℤ
  y : ℤ
  w : ℤ
  h : ℤ
  scaleIndex : ℤ
deriving DecidableEq, Repr

/-- Window offset record: the 6-tuple written per window by
`initWindowOffsets` (`TLD_WINDOW_OFFSET_SIZE = 6` ints). -/
structure OffsetRec where
  o1 : ℤ
  o2 : ℤ
  o3 : ℤ
  o4 : ℤ
  featureBase : ℤ
  area : ℤ
deriving DecidableEq, Repr

/-- Modelled from the spec: the Shared Detection State (class
`DetectionResult`, declared outside the given source file).  Per the spec it
holds per-window storage sized at initialization, and a validity flag that is
false until a detection pass completes.  Only the fields the claims touch are
modelled. -/
structure DetectionResult where
  containsValidData : Bool
  numWindowsAlloc : ℤ
deriving DecidableEq, Repr

/-- Modelled from the spec: `DetectionResult::init(numWindows, numTrees)`
allocates per-window storage; the validity flag starts false. -/
def DetectionResult.init (numWindows _numTrees : ℤ) : DetectionResult :=
  ⟨false, numWindows⟩

/-- Modelled from the spec: `DetectionResult::reset()` logically clears the
frame-scoped state (validity flag false) without reallocating. -/
def DetectionResult.reset (d : DetectionResult) : DetectionResult :=
  { d with containsValidData := false }

/-- Modelled from the spec: `DetectionResult::release()` frees the per-window
storage. -/
def DetectionResult.release (_d : DetectionResult) : DetectionResult :=
  ⟨false, 0⟩

/-- State of a `CuDetectorCascade` object: one field per C++ data member used
by the source file.  `shift` (C `float`, default `0.1`) is kept exactly as
`shiftNum / shiftDen`; `useShift` (C `int`) is a Bool; `windows_d` is the
device mirror of the window array (`none` = null pointer). -/
structure CuDetectorCascade where
  objWidth : ℤ
  objHeight : ℤ
  useShift : Bool
  imgHeight : ℤ
  imgWidth : ℤ
  shiftNum : ℤ
  shiftDen : ℤ
  minScale : ℤ
  maxScale : ℤ
  minSize : ℤ
  imgWidthStep : ℤ
  numTrees : ℤ
  numFeatures : ℤ
  initialised : Bool
  windows_d : Option (List Window)
  numWindows : ℤ
  numScales : ℤ
  scales : List Size
  windows : List Window
  windowOffsets : List OffsetRec
  detectionResult : DetectionResult
deriving DecidableEq, Repr

/-- Constructor `CuDetectorCascade::CuDetectorCascade()`.  The members not
assigned by the C++ constructor (`numWindows`, `numScales`, the three host
arrays) are indeterminate in C++ and are given neutral model values here; no
claim depends on them before `init`. -/
def construct : CuDetectorCascade where
  objWidth := -1
  objHeight := -1
  useShift := true
  imgHeight := -1
  imgWidth := -1
  shiftNum := 1
  shiftDen := 10
  minScale := -10
  maxScale := 10
  minSize := 25
  imgWidthStep := -1
  numTrees := 13
  numFeatures := 10
  initialised := false
  windows_d := none
  numWindows := 0
  numScales := 0
  scales := []
  windows := []
  windowOffsets := []
  detectionResult := ⟨false, 0⟩

/-- Numerator of the exact value of `pow(1.2, i)` as the rational
`6^i / 5^i`. -/
def pow12num (i : ℤ) : ℤ :=
  if 0 ≤ i then 6 ^ i.toNat else 5 ^ (-i).toNat

/-- Denominator of the exact value of `pow(1.2, i)`; always positive. -/
def pow12den (i : ℤ) : ℤ :=
  if 0 ≤ i then 5 ^ i.toNat else 6 ^ (-i).toNat

/-- Candidate window side at exponent `i`: `(int)(side * pow(1.2, i))`,
C truncation toward zero modelled by `Int.tdiv`. -/
def scaledSide (side i : ℤ) : ℤ :=
  (side * pow12num i).tdiv (pow12den i)

/-- Step size for one axis: `ssw = max<float>(1, w * shift)` followed by the
implicit float-to-int truncation.  Truncating after the max equals taking the
max after truncating, since the cutoff is the integer 1. -/
def stepOf (shiftNum shiftDen : ℤ) (useShift : Bool) (w : ℤ) : ℤ :=
  if useShift then max 1 ((w * shiftNum).tdiv shiftDen) else 1

/-- List of scale exponents `minScale, minScale+1, ..., maxScale` walked by
the loop in `initWindowsAndScales`. -/
def expRange (lo hi : ℤ) : List ℤ :=
  (List.range (hi - lo + 1).toNat).map fun k => lo + (k : ℤ)

/-- First (counting) pass of `initWindowsAndScales`, scale part: a candidate
at exponent `i` is skipped when `w < minSize || h < minSize || w > scanAreaW
|| h > scanAreaH`; accepted candidates are appended in exponent order. -/
def acceptedScales (s : CuDetectorCascade) : List Size :=
  let scanAreaW := s.imgWidth - 1
  let scanAreaH := s.imgHeight - 1
  (expRange s.minScale s.maxScale).filterMap fun i =>
    let w := scaledSide s.objWidth i
    let h := scaledSide s.objHeight i
    if w < s.minSize ∨ h < s.minSize ∨ scanAreaW < w ∨ scanAreaH < h then none
    else some ⟨w, h⟩

/-- Number of windows the counting pass adds for one accepted scale:
`floor((scanAreaW - w + ssw) / ssw) * floor((scanAreaH - h + ssh) / ssh)`.
All accepted scales make both dividends positive, so the mathematical floor
of the float quotient is `Int` division (`/` = `Int.ediv`). -/
def perScaleCount (scanAreaW scanAreaH shiftNum shiftDen : ℤ) (useShift : Bool)
    (sz : Size) : ℤ :=
  let ssw := stepOf shiftNum shiftDen useShift sz.width
  let ssh := stepOf shiftNum shiftDen useShift sz.height
  (scanAreaW - sz.width + ssw) / ssw * ((scanAreaH - sz.height + ssh) / ssh)

/-- Total `numWindows` accumulated by the counting pass.  The source adds the
per-scale term inside the same exponent loop that appends the accepted scale,
which is the same as summing the term over the accepted-scale list. -/
def countingNumWindows (s : CuDetectorCascade) : ℤ :=
  ((acceptedScales s).map
    (perScaleCount (s.imgWidth - 1) (s.imgHeight - 1) s.shiftNum s.shiftDen
      s.useShift)).sum

/-- Body of one scan loop of the generation pass, structurally recursive on
a fuel argument so that it evaluates inside the kernel; `loopPos` below
supplies fuel that is always sufficient, since each iteration advances `x`
by `step ≥ 1`. -/
def loopPosAux (step bound side : ℤ) : ℕ → ℤ → List ℤ
  | 0, _ => []
  | fuel + 1, x =>
    if x + side ≤ bound then x :: loopPosAux step bound side fuel (x + step)
    else []

/-- One scan loop of the generation pass:
`for(v = 1; v + side <= bound; v += step)` collecting the visited positions.
The `step ≤ 0` guard is never taken (steps are `max 1 …`); it only makes the
fuel bound meaningful. -/
def loopPos (step bound side x : ℤ) : List ℤ :=
  if step ≤ 0 then []
  else loopPosAux step bound side (bound + 1 - side - x).toNat x

/-- Second (generation) pass, one scale: the row loop
`for(y = scanAreaY; y + h <= scanAreaY + scanAreaH; y += ssh)` around the
column loop `for(x = scanAreaX; x + w <= scanAreaX + scanAreaW; x += ssw)`,
each hit writing the record `(x, y, w, h, scaleIndex)`
(`tldCopyBoundaryToArray` plus `bb[4] = scaleIndex`). -/
def windowsAtScale (scanAreaW scanAreaH shiftNum shiftDen : ℤ)
    (useShift : Bool) (scaleIdx : ℤ) (sz : Size) : List Window :=
  let ssw := stepOf shiftNum shiftDen useShift sz.width
  let ssh := stepOf shiftNum shiftDen useShift sz.height
  (loopPos ssh (1 + scanAreaH) sz.height 1).flatMap fun y =>
    (loopPos ssw (1 + scanAreaW) sz.width 1).map fun x =>
      ⟨x, y, sz.width, sz.height, scaleIdx⟩

/-- Full window sequence produced by the generation pass: all scales in
index order, rows then columns inside a scale. -/
def generatedWindows (s : CuDetectorCascade) : List Window :=
  ((acceptedScales s).enum).flatMap fun p =>
    windowsAtScale (s.imgWidth - 1) (s.imgHeight - 1) s.shiftNum s.shiftDen
      s.useShift (p.1 : ℤ) p.2

/-- Member function `CuDetectorCascade::initWindowsAndScales()`: stores the
accepted scales and `numScales`, the counted `numWindows`, the generated
window array, and its device mirror (`cudaMalloc` + `cudaMemcpy`). -/
def initWindowsAndScales (s : CuDetectorCascade) : CuDetectorCascade :=
  { s with
    scales := acceptedScales s
    numScales := ((acceptedScales s).length : ℤ)
    numWindows := countingNumWindows s
    windows := generatedWindows s
    windows_d := some (generatedWindows s) }

/-- Modelled from the spec: `sub2idx` (from TLDUtil, outside the given
source file) flattens a pixel coordinate row-major with row stride
`widthstep`. -/
def sub2idx (x y widthstep : ℤ) : ℤ :=
  y * widthstep + x

/-- Offset record written for one window by `initWindowOffsets`. -/
def offsetRecord (imgWidthStep numFeatures numTrees : ℤ) (win : Window) :
    OffsetRec where
  o1 := sub2idx (win.x - 1) (win.y - 1) imgWidthStep
  o2 := sub2idx (win.x - 1) (win.y + win.h - 1) imgWidthStep
  o3 := sub2idx (win.x + win.w - 1) (win.y - 1) imgWidthStep
  o4 := sub2idx (win.x + win.w - 1) (win.y + win.h - 1) imgWidthStep
  featureBase := win.scaleIndex * 2 * numFeatures * numTrees
  area := win.w * win.h

/-- Member function `CuDetectorCascade::initWindowOffsets()`: the loop
`for(i = 0; i < numWindows; i++)` writes one 6-int record per window, in
window order, i.e. a map over the window sequence. -/
def initWindowOffsets (s : CuDetectorCascade) : CuDetectorCascade :=
  { s with
    windowOffsets :=
      s.windows.map (offsetRecord s.imgWidthStep s.numFeatures s.numTrees) }

/-- Member function `CuDetectorCascade::propagateMembers()`: allocates the
Shared Detection State via `detectionResult->init(numWindows, numTrees)` and
copies shared fields into the collaborator objects (the collaborators'
internal state is outside this core and not modelled). -/
def propagateMembers (s : CuDetectorCascade) : CuDetectorCascade :=
  { s with detectionResult := DetectionResult.init s.numWindows s.numTrees }

/-- Member function `CuDetectorCascade::init()`.  The sentinel check
`if(imgWidth == -1 || imgHeight == -1 || imgWidthStep == -1 || objWidth == -1
|| objHeight == -1)` has an empty body in the source (its error report is
commented out with a TODO), so the function proceeds unconditionally:
geometry, offsets, member propagation, `ensembleClassifier->init()`
(external), then `initialised = true`. -/
def init (s : CuDetectorCascade) : CuDetectorCascade :=
  let s1 := initWindowsAndScales s
  let s2 := initWindowOffsets s1
  let s3 := propagateMembers s2
  { s3 with initialised := true }

/-- Member function `CuDetectorCascade::release()`: no-op unless initialised;
otherwise clears the initialised flag, releases collaborators, zeroes the
counts, frees the three host arrays and the device buffer, resets the
template-size sentinels, and releases the detection state. -/
def release (s : CuDetectorCascade) : CuDetectorCascade :=
  if s.initialised = false then s
  else
    { s with
      initialised := false
      numWindows := 0
      numScales := 0
      scales := []
      windows := []
      windowOffsets := []
      windows_d := none
      objWidth := -1
      objHeight := -1
      detectionResult := s.detectionResult.release }

/-- Events observable in one run of `CuDetectorCascade::detect`, used to
state which stages the orchestrator invokes and in which order. -/
inductive DetectEv where
  | reset : DetectEv
  | varianceFilter : DetectEv
  | ensembleTest : ℤ → DetectEv
  | nnTest : ℤ → DetectEv
  | clustering : DetectEv
  | setValid : DetectEv
deriving DecidableEq, Repr

/-- Modelled from the spec: `createIndexArray(numWindows)` (external, device
side) builds the initial surviving-index set, the full range
`[0, numWindows)`. -/
def createIndexArray (numWindows : ℤ) : List ℤ :=
  (List.range numWindows.toNat).map fun k => (k : ℤ)

/-- Modelled from the spec: `Clustering::clusterConfidentIndices()` consumes
the confident-index set and produces merged output boxes; it does not touch
the fields of the detection state modelled here. -/
def clusterConfidentIndices (d : DetectionResult) : DetectionResult :=
  d

/-- Member function `CuDetectorCascade::detect(img)`.  The frame together
with the variance filter's device pass is abstracted as `survive`, the map
from the initial surviving-index set to the reduced one.  The executed body
is: early return when not initialised; `detectionResult->reset()`; build the
full index set; variance-filter pass; `clustering->clusterConfidentIndices()`;
`containsValidData = true`.  The per-window Ensemble/NN loop of the original
cascade is commented out in the source (lines 301-370) and therefore emits
no events.  The second component records the stage events in order. -/
def detect (survive : List ℤ → List ℤ) (s : CuDetectorCascade) :
    CuDetectorCascade × List DetectEv :=
  if s.initialised = false then (s, [])
  else
    let dr := s.detectionResult.reset
    let inWins := createIndexArray s.numWindows
    let _survivors := survive inWins
    let dr2 := clusterConfidentIndices dr
    ({ s with detectionResult := { dr2 with containsValidData := true } },
      [DetectEv.reset, DetectEv.varianceFilter, DetectEv.clustering,
        DetectEv.setValid])

/-- Configurations whose required dimensions are all set to genuine pixel
sizes (no `-1` sentinels, nondegenerate image, positive minimum size). -/
def Valid (s : CuDetectorCascade) : Prop :=
  1 ≤ s.objWidth ∧ 1 ≤ s.objHeight ∧ 2 ≤ s.imgWidth ∧ 2 ≤ s.imgHeight ∧
    1 ≤ s.imgWidthStep ∧ 1 ≤ s.minSize

instance (s : CuDetectorCascade) : Decidable (Valid s) := by
  unfold Valid
  infer_instance

/-! Helper lemmas about the scan loop. -/

theorem loopPosAux_nil (step bound side : ℤ) (fuel : ℕ) (x : ℤ)
    (h : ¬ x + side ≤ bound) : loopPosAux step bound side fuel x = [] := by
  cases fuel with
  | zero => rfl
  | succ n => simp [loopPosAux, h]

theorem loopPosAux_length (step bound side : ℤ) (hs : 1 ≤ step) :
    ∀ (fuel : ℕ) (x : ℤ), x + side ≤ bound →
      (bound - side - x).toNat < fuel →
      ((loopPosAux step bound side fuel x).length : ℤ)
        = (bound - side - x) / step + 1 := by
  intro fuel
  induction fuel with
  | zero => intro x _ hf; omega
  | succ n ih =>
    intro x hx hf
    rw [loopPosAux, if_pos hx]
    by_cases hx2 : x + step + side ≤ bound
    · have hf2 : (bound - side - (x + step)).toNat < n := by omega
      have := ih (x + step) hx2 hf2
      have hdiv : (bound - side - x) / step = (bound - side - (x + step)) / step + 1 := by
        have hrw : bound - side - x = (bound - side - (x + step)) + 1 * step := by ring
        rw [hrw, Int.add_mul_ediv_right _ _ (by omega : step ≠ 0)]
      simp only [List.length_cons]
      push_cast
      omega
    · rw [loopPosAux_nil step bound side n (x + step) hx2]
      have hdiv : (bound - side - x) / step = 0 :=
        Int.ediv_eq_zero_of_lt (by omega) (by omega)
      simp [hdiv]

theorem loopPos_length (step bound side x : ℤ) (hs : 1 ≤ step)
    (hx : x + side ≤ bound) :
    ((loopPos step bound side x).length : ℤ) = (bound - side - x) / step + 1 := by
  rw [loopPos, if_neg (by omega : ¬ step ≤ 0)]
  exact loopPosAux_length step bound side hs _ x hx (by omega)

theorem loopPos_nil (step bound side x : ℤ) (h : ¬ x + side ≤ bound) :
    loopPos step bound side x = [] := by
  rw [loopPos]
  by_cases hstep : step ≤ 0
  · rw [if_pos hstep]
  · rw [if_neg hstep]
    exact loopPosAux_nil step bound side _ x h

theorem loopPosAux_mem (step bound side : ℤ) (hs : 0 ≤ step) :
    ∀ (fuel : ℕ) (x y : ℤ), y ∈ loopPosAux step bound side fuel x →
      x ≤ y ∧ y + side ≤ bound := by
  intro fuel
  induction fuel with
  | zero => intro x y hy; simp [loopPosAux] at hy
  | succ n ih =>
    intro x y hy
    rw [loopPosAux] at hy
    by_cases hx : x + side ≤ bound
    · rw [if_pos hx] at hy
      rcases List.mem_cons.mp hy with h | h
      · exact ⟨le_of_eq h.symm, h ▸ hx⟩
      · have := ih (x + step) y h
        exact ⟨by omega, this.2⟩
    · rw [if_neg hx] at hy
      simp at hy

theorem loopPos_mem (step bound side x y : ℤ) (hs : 0 ≤ step)
    (hy : y ∈ loopPos step bound side x) : x ≤ y ∧ y + side ≤ bound := by
  rw [loopPos] at hy
  by_cases hstep : step ≤ 0
  · rw [if_pos hstep] at hy; simp at hy
  · rw [if_neg hstep] at hy
    exact loopPosAux_mem step bound side hs _ x y hy

theorem stepOf_pos (shiftNum shiftDen : ℤ) (useShift : Bool) (w : ℤ) :
    1 ≤ stepOf shiftNum shiftDen useShift w := by
  cases useShift with
  | false => simp [stepOf]
  | true => simp only [stepOf, if_pos]; exact le_max_left 1 _

/-! Helper lemmas about the two passes of `initWindowsAndScales`. -/

theorem windowsAtScale_length (scanAreaW scanAreaH shiftNum shiftDen : ℤ)
    (useShift : Bool) (scaleIdx : ℤ) (sz : Size)
    (hw : sz.width ≤ scanAreaW) (hh : sz.height ≤ scanAreaH) :
    ((windowsAtScale scanAreaW scanAreaH shiftNum shiftDen useShift scaleIdx
        sz).length : ℤ)
      = perScaleCount scanAreaW scanAreaH shiftNum shiftDen useShift sz := by
  have hssw := stepOf_pos shiftNum shiftDen useShift sz.width
  have hssh := stepOf_pos shiftNum shiftDen useShift sz.height
  set ssw := stepOf shiftNum shiftDen useShift sz.width with hsswdef
  set ssh := stepOf shiftNum shiftDen useShift sz.height with hsshdef
  have hlenX : ((loopPos ssw (1 + scanAreaW) sz.width 1).length : ℤ)
      = (scanAreaW - sz.width) / ssw + 1 := by
    have := loopPos_length ssw (1 + scanAreaW) sz.width 1 hssw (by omega)
    simpa [show 1 + scanAreaW - sz.width - 1 = scanAreaW - sz.width by ring]
      using this
  have hlenY : ((loopPos ssh (1 + scanAreaH) sz.height 1).length : ℤ)
      = (scanAreaH - sz.height) / ssh + 1 := by
    have := loopPos_length ssh (1 + scanAreaH) sz.height 1 hssh (by omega)
    simpa [show 1 + scanAreaH - sz.height - 1 = scanAreaH - sz.height by ring]
      using this
  have hcountW : (scanAreaW - sz.width + ssw) / ssw
      = (scanAreaW - sz.width) / ssw + 1 := by
    have hrw : scanAreaW - sz.width + ssw = (scanAreaW - sz.width) + 1 * ssw := by
      ring
    rw [hrw, Int.add_mul_ediv_right _ _ (by omega : ssw ≠ 0)]
  have hcountH : (scanAreaH - sz.height + ssh) / ssh
      = (scanAreaH - sz.height) / ssh + 1 := by
    have hrw : scanAreaH - sz.height + ssh = (scanAreaH - sz.height) + 1 * ssh := by
      ring
    rw [hrw, Int.add_mul_ediv_right _ _ (by omega : ssh ≠ 0)]
  rw [windowsAtScale, perScaleCount]
  simp only [← hsswdef, ← hsshdef, List.length_flatMap, List.map_map]
  rw [hcountW, hcountH]
  have hmapconst :
      (List.map ((fun l => l.length) ∘ fun y =>
          (loopPos ssw (1 + scanAreaW) sz.width 1).map fun x =>
            (⟨x, y, sz.width, sz.height, scaleIdx⟩ : Window))
        (loopPos ssh (1 + scanAreaH) sz.height 1)).sum
      = (loopPos ssh (1 + scanAreaH) sz.height 1).length
          * (loopPos ssw (1 + scanAreaW) sz.width 1).length := by
    simp only [Function.comp_def, List.length_map]
    rw [List.map_const', List.sum_replicate, smul_eq_mul]
  rw [hmapconst]
  push_cast
  rw [hlenX, hlenY]
  ring

theorem acceptedScales_bounds (s : CuDetectorCascade) (sz : Size)
    (h : sz ∈ acceptedScales s) :
    s.minSize ≤ sz.width ∧ s.minSize ≤ sz.height ∧
      sz.width ≤ s.imgWidth - 1 ∧ sz.height ≤ s.imgHeight - 1 := by
  rw [acceptedScales, List.mem_filterMap] at h
  obtain ⟨i, -, hi⟩ := h
  by_cases hc : scaledSide s.objWidth i < s.minSize ∨
      scaledSide s.objHeight i < s.minSize ∨
      s.imgWidth - 1 < scaledSide s.objWidth i ∨
      s.imgHeight - 1 < scaledSide s.objHeight i
  · rw [if_pos hc] at hi
    exact absurd hi (by simp)
  · rw [if_neg hc] at hi
    push_neg at hc
    cases hi
    exact ⟨hc.1, hc.2.1, hc.2.2.1, hc.2.2.2⟩

theorem enumFrom_windows_length (scanAreaW scanAreaH shiftNum shiftDen : ℤ)
    (useShift : Bool) :
    ∀ (L : List Size) (n : ℕ),
      (∀ sz ∈ L, sz.width ≤ scanAreaW ∧ sz.height ≤ scanAreaH) →
      ((((List.enumFrom n L).flatMap fun p =>
          windowsAtScale scanAreaW scanAreaH shiftNum shiftDen useShift
            (p.1 : ℤ) p.2).length : ℤ))
        = (L.map (perScaleCount scanAreaW scanAreaH shiftNum shiftDen
            useShift)).sum := by
  intro L
  induction L with
  | nil => intro n _; simp
  | cons sz rest ih =>
    intro n hb
    have hsz := hb sz (List.mem_cons_self sz rest)
    have hrest : ∀ a ∈ rest, a.width ≤ scanAreaW ∧ a.height ≤ scanAreaH :=
      fun a ha => hb a (List.mem_cons_of_mem sz ha)
    show (((((n, sz) :: List.enumFrom (n + 1) rest).flatMap fun p =>
        windowsAtScale scanAreaW scanAreaH shiftNum shiftDen useShift
          (p.1 : ℤ) p.2).length : ℤ)) = _
    rw [List.flatMap_cons, List.length_append, List.map_cons, List.sum_cons]
    push_cast
    rw [windowsAtScale_length scanAreaW scanAreaH shiftNum shiftDen useShift
      (n : ℤ) sz hsz.1 hsz.2, ih (n + 1) hrest]

theorem generatedWindows_length (s : CuDetectorCascade) :
    ((generatedWindows s).length : ℤ) = countingNumWindows s := by
  rw [generatedWindows, countingNumWindows]
  exact enumFrom_windows_length (s.imgWidth - 1) (s.imgHeight - 1) s.shiftNum
    s.shiftDen s.useShift (acceptedScales s) 0
    (fun sz hsz => ⟨(acceptedScales_bounds s sz hsz).2.2.1,
      (acceptedScales_bounds s sz hsz).2.2.2⟩)

theorem windowsAtScale_mem (scanAreaW scanAreaH shiftNum shiftDen : ℤ)
    (useShift : Bool) (scaleIdx : ℤ) (sz : Size) (wi : Window)
    (h : wi ∈ windowsAtScale scanAreaW scanAreaH shiftNum shiftDen useShift
      scaleIdx sz) :
    1 ≤ wi.x ∧ 1 ≤ wi.y ∧ wi.x + wi.w ≤ 1 + scanAreaW ∧
      wi.y + wi.h ≤ 1 + scanAreaH := by
  have hssw := stepOf_pos shiftNum shiftDen useShift sz.width
  have hssh := stepOf_pos shiftNum shiftDen useShift sz.height
  rw [windowsAtScale, List.mem_flatMap] at h
  obtain ⟨y, hy, hwy⟩ := h
  rw [List.mem_map] at hwy
  obtain ⟨x, hx, hwx⟩ := hwy
  have hxb := loopPos_mem _ _ _ _ _ (by omega) hx
  have hyb := loopPos_mem _ _ _ _ _ (by omega) hy
  cases hwx
  exact ⟨hxb.1, hyb.1, hxb.2, hyb.2⟩

theorem generatedWindows_mem (s : CuDetectorCascade) (wi : Window)
    (h : wi ∈ generatedWindows s) :
    1 ≤ wi.x ∧ 1 ≤ wi.y ∧ wi.x + wi.w ≤ s.imgWidth ∧
      wi.y + wi.h ≤ s.imgHeight := by
  rw [generatedWindows, List.mem_flatMap] at h
  obtain ⟨p, -, hp⟩ := h
  have := windowsAtScale_mem (s.imgWidth - 1) (s.imgHeight - 1) s.shiftNum
    s.shiftDen s.useShift (p.1 : ℤ) p.2 wi hp
  refine ⟨this.1, this.2.1, ?_, ?_⟩
  · have := this.2.2.1; omega
  · have := this.2.2.2; omega

theorem release_not_initialised (s : CuDetectorCascade)
    (h : s.initialised = false) : release s = s := by
  rw [release, if_pos h]

theorem release_initialised_false (s : CuDetectorCascade) :
    (release s).initialised = false := by
  rw [release]
  by_cases h : s.initialised = false
  · rw [if_pos h]; exact h
  · rw [if_neg h]

/-! Concrete states used to instantiate the claims. -/

/-- Valid configuration with a 30×30 image and a 25×25 template at a single
scale exponent; the single accepted scale is 25×25 with step 2. -/
def cfgSmall : CuDetectorCascade :=
  { construct with
    objWidth := 25
    objHeight := 25
    imgWidth := 30
    imgHeight := 30
    imgWidthStep := 30
    minScale := 0
    maxScale := 0 }

/-- Configuration of the worked example: template 24×24, image 100×100 with
stride 100, scale exponents [-1, 1], shift ratio 0.1, minimum size 25. -/
def cfgExample : CuDetectorCascade :=
  { construct with
    objWidth := 24
    objHeight := 24
    imgWidth := 100
    imgHeight := 100
    imgWidthStep := 100
    minScale := -1
    maxScale := 1 }

/-- State holding one hand-written window record, for instantiating the
offset-table theorem. -/
def oneWindowState : CuDetectorCascade :=
  { construct with windows := [⟨1, 1, 2, 3, 0⟩] }

/-- An initialised cascade state with one window. -/
def initialisedState : CuDetectorCascade :=
  { construct with
    initialised := true
    numWindows := 1 }

/-! Claim theorems. -/

/-- Claim C1, counterexample: on an initialised cascade whose full window
index 0 survives the variance filter, `detect` emits no per-window
Ensemble-Classifier or Nearest-Neighbor test at all — it goes from the
variance filter straight to clustering and marks the state valid — refuting
the claim that the orchestrator iterates the surviving set through those two
stages. -/
theorem claim1_counterexample :
    initialisedState.initialised = true ∧
    id (createIndexArray initialisedState.numWindows) = [0] ∧
    (detect id initialisedState).2 =
      [DetectEv.reset, DetectEv.varianceFilter, DetectEv.clustering,
        DetectEv.setValid] ∧
    DetectEv.ensembleTest 0 ∉ (detect id initialisedState).2 ∧
    DetectEv.nnTest 0 ∉ (detect id initialisedState).2 := by
  decide

/-- Claim C1, amended: on every initialised cascade and every frame
(abstracted as the variance filter's surviving-set map), the detection pass
resets the shared state, runs the variance filter, then invokes Clustering
directly and marks the Shared Detection State valid; the per-window
Ensemble/Nearest-Neighbor stage loop is disabled (commented out) in this
source and is not invoked. -/
theorem claim1_theorem (survive : List ℤ → List ℤ) (s : CuDetectorCascade)
    (h : s.initialised = true) :
    (detect survive s).2 =
      [DetectEv.reset, DetectEv.varianceFilter, DetectEv.clustering,
        DetectEv.setValid] ∧
    (detect survive s).1.detectionResult.containsValidData = true := by
  rw [detect, if_neg (by simp [h])]
  exact ⟨rfl, rfl⟩

/-- Claim C1, witness for the amended theorem at a concrete initialised
state. -/
theorem claim1_witness :
    (detect id initialisedState).2 =
      [DetectEv.reset, DetectEv.varianceFilter, DetectEv.clustering,
        DetectEv.setValid] ∧
    (detect id initialisedState).1.detectionResult.containsValidData = true :=
  claim1_theorem id initialisedState rfl

/-- Claim C2: the claim says `init()` must fail before any allocation when a
required dimension is still the `-1` sentinel.  The code's sentinel check has
an empty body (its error report is commented out, with a TODO to turn it into
an exception), so on a freshly constructed cascade — all five dimensions
still `-1` — `init()` proceeds with the sentinel values and marks the cascade
initialised.  This theorem evaluates the code at that failing input. -/
theorem claim2_code_proceeds_with_sentinels :
    construct.imgWidth = -1 ∧ construct.imgHeight = -1 ∧
    construct.imgWidthStep = -1 ∧ construct.objWidth = -1 ∧
    construct.objHeight = -1 ∧
    (init construct).initialised = true := by
  decide

/-- Claim C3: for every valid configuration, the window total computed by
the counting pass equals the number of window records written by the
generation pass. -/
theorem claim3_theorem (s : CuDetectorCascade) (h : Valid s) :
    (initWindowsAndScales s).numWindows
      = ((initWindowsAndScales s).windows.length : ℤ) := by
  show countingNumWindows s = ((generatedWindows s).length : ℤ)
  exact (generatedWindows_length s).symm

/-- Claim C3, witness at a concrete valid configuration. -/
theorem claim3_witness :
    Valid cfgSmall ∧
    (initWindowsAndScales cfgSmall).numWindows
      = ((initWindowsAndScales cfgSmall).windows.length : ℤ) :=
  ⟨by decide, claim3_theorem cfgSmall (by decide)⟩

/-- Claim C4, counterexample: in the valid 30×30 configuration the
generation pass produces the window `(5, 5, 25, 25)` whose right edge
satisfies `x + w = 30 = imgWidth`, violating the claimed bound
`x + w ≤ imgWidth - 1` (the loop condition in the source is
`x + w <= scanAreaX + scanAreaW`, i.e. `x + w ≤ imgWidth`). -/
theorem claim4_counterexample :
    Valid cfgSmall ∧
    (⟨5, 5, 25, 25, 0⟩ : Window) ∈ (initWindowsAndScales cfgSmall).windows ∧
    ¬ ((5 : ℤ) + 25 ≤ cfgSmall.imgWidth - 1) := by
  decide

/-- Claim C4, amended: every window produced by the generation pass for a
valid configuration satisfies `x ≥ 1`, `y ≥ 1`, `x + w ≤ imgWidth` and
`y + h ≤ imgHeight`. -/
theorem claim4_theorem (s : CuDetectorCascade) (h : Valid s) :
    ∀ wi ∈ (initWindowsAndScales s).windows,
      1 ≤ wi.x ∧ 1 ≤ wi.y ∧ wi.x + wi.w ≤ s.imgWidth ∧
        wi.y + wi.h ≤ s.imgHeight := by
  intro wi hwi
  exact generatedWindows_mem s wi hwi

/-- Claim C4, witness for the amended theorem at a concrete valid
configuration and generated window. -/
theorem claim4_witness :
    (1 : ℤ) ≤ 1 ∧ (1 : ℤ) ≤ 1 ∧ (1 : ℤ) + 25 ≤ cfgSmall.imgWidth ∧
      (1 : ℤ) + 25 ≤ cfgSmall.imgHeight :=
  claim4_theorem cfgSmall (by decide) ⟨1, 1, 25, 25, 0⟩ (by decide)

/-- Claim C5, counterexample: with template 24×24, image 100×100, exponents
[-1, 1], shift 0.1 and minSize 25, the enumeration accepts only one scale —
`(int)(24 * 1.2) = 28` (not 29), and exponent 0 gives `w = h = 24 < 25`,
which is also rejected — so `numScales ≠ 2`, refuting the claim. -/
theorem claim5_counterexample :
    (initWindowsAndScales cfgExample).numScales ≠ 2 ∧
    acceptedScales cfgExample = [⟨28, 28⟩] := by
  decide

/-- Claim C5, amended: in that configuration exponent -1 yields `w = h = 20`
(rejected, below minSize), exponent 0 yields `w = h = 24` (also rejected,
below minSize 25), exponent 1 yields `w = h = 28` (accepted), and
`numScales = 1`. -/
theorem claim5_theorem :
    scaledSide cfgExample.objWidth (-1) = 20 ∧
    scaledSide cfgExample.objWidth 0 = 24 ∧
    scaledSide cfgExample.objWidth 1 = 28 ∧
    acceptedScales cfgExample = [⟨28, 28⟩] ∧
    (initWindowsAndScales cfgExample).numScales = 1 := by
  decide

/-- Claim C6: the offset-table builder emits exactly one offset record per
window, in window order, and for each window the record's `featureBase`
equals `scaleIndex * 2 * numFeatures * numTrees` and its `area` equals
`w * h`. -/
theorem claim6_theorem (s : CuDetectorCascade) :
    ((initWindowOffsets s).windowOffsets).length = s.windows.length ∧
    ∀ (i : ℕ) (wi : Window), s.windows.get? i = some wi →
      ∃ r, ((initWindowOffsets s).windowOffsets).get? i = some r ∧
        r.featureBase = wi.scaleIndex * 2 * s.numFeatures * s.numTrees ∧
        r.area = wi.w * wi.h := by
  constructor
  · exact List.length_map _ _
  · intro i wi hwi
    refine ⟨offsetRecord s.imgWidthStep s.numFeatures s.numTrees wi, ?_, rfl,
      rfl⟩
    show (s.windows.map _).get? i = _
    rw [List.get?_map, hwi]
    rfl

/-- Claim C6, witness at a state with one concrete window. -/
theorem claim6_witness :
    ((initWindowOffsets oneWindowState).windowOffsets).length
        = oneWindowState.windows.length ∧
    ∃ r, ((initWindowOffsets oneWindowState).windowOffsets).get? 0 = some r ∧
      r.featureBase = (0 : ℤ) * 2 * oneWindowState.numFeatures
        * oneWindowState.numTrees ∧
      r.area = (2 : ℤ) * 3 :=
  ⟨(claim6_theorem oneWindowState).1,
    (claim6_theorem oneWindowState).2 0 ⟨1, 1, 2, 3, 0⟩ rfl⟩

/-- Claim C7: calling the detection pass on a cascade that is not initialised
is a defined no-op — it returns immediately, mutates no state, and leaves the
validity flag false. -/
theorem claim7_theorem (survive : List ℤ → List ℤ) (s : CuDetectorCascade)
    (h : s.initialised = false)
    (h2 : s.detectionResult.containsValidData = false) :
    detect survive s = (s, []) ∧
    (detect survive s).1.detectionResult.containsValidData = false := by
  have hd : detect survive s = (s, []) := by rw [detect, if_pos h]
  exact ⟨hd, by rw [hd]; exact h2⟩

/-- Claim C7, witness at the freshly constructed cascade. -/
theorem claim7_witness :
    detect id construct = (construct, []) ∧
    (detect id construct).1.detectionResult.containsValidData = false :=
  claim7_theorem id construct rfl rfl

/-- Claim C8: `release()` while uninitialised is a no-op leaving the whole
state unchanged, and a second `release()` immediately after a first is always
a no-op (release is idempotent). -/
theorem claim8_theorem (s : CuDetectorCascade) :
    (s.initialised = false → release s = s) ∧
    release (release s) = release s :=
  ⟨release_not_initialised s,
    release_not_initialised (release s) (release_initialised_false s)⟩

/-- Claim C8, witness at the freshly constructed (uninitialised) cascade. -/
theorem claim8_witness :
    release construct = construct ∧
    release (release construct) = release construct :=
  ⟨(claim8_theorem construct).1 rfl, (claim8_theorem construct).2⟩

/-- Claim C9: immediately after construction the cascade is uninitialised,
the device window buffer is null, the five required dimensions hold the
sentinel -1, and the remaining configuration holds the concrete defaults:
shift 0.1 (kept as 1/10), proportional shift enabled, scale exponents
[-10, 10], minSize 25, 13 trees, 10 features. -/
theorem claim9_theorem :
    construct.initialised = false ∧ construct.windows_d = none ∧
    construct.objWidth = -1 ∧ construct.objHeight = -1 ∧
    construct.imgWidth = -1 ∧ construct.imgHeight = -1 ∧
    construct.imgWidthStep = -1 ∧
    construct.shiftNum = 1 ∧ construct.shiftDen = 10 ∧
    construct.useShift = true ∧
    construct.minScale = -10 ∧ construct.maxScale = 10 ∧
    construct.minSize = 25 ∧
    construct.numTrees = 13 ∧ construct.numFeatures = 10 := by
  decide

/-- Claim C10: `release()` on an initialised cascade clears only the
template-size fields back to the -1 sentinel; the image dimensions and
stride, the scale-exponent range, minSize, shift mode and ratio, and the
feature/tree counts are all left unchanged. -/
theorem claim10_theorem (s : CuDetectorCascade) (h : s.initialised = true) :
    (release s).objWidth = -1 ∧ (release s).objHeight = -1 ∧
    (release s).imgWidth = s.imgWidth ∧
    (release s).imgHeight = s.imgHeight ∧
    (release s).imgWidthStep = s.imgWidthStep ∧
    (release s).minScale = s.minScale ∧ (release s).maxScale = s.maxScale ∧
    (release s).minSize = s.minSize ∧ (release s).useShift = s.useShift ∧
    (release s).shiftNum = s.shiftNum ∧ (release s).shiftDen = s.shiftDen ∧
    (release s).numTrees = s.numTrees ∧
    (release s).numFeatures = s.numFeatures := by
  simp [release, h]

/-- Claim C10, witness at a concrete initialised state. -/
theorem claim10_witness :
    (release initialisedState).objWidth = -1 ∧
    (release initialisedState).objHeight = -1 ∧
    (release initialisedState).imgWidth = initialisedState.imgWidth ∧
    (release initialisedState).imgHeight = initialisedState.imgHeight ∧
    (release initialisedState).imgWidthStep = initialisedState.imgWidthStep ∧
    (release initialisedState).minScale = initialisedState.minScale ∧
    (release initialisedState).maxScale = initialisedState.maxScale ∧
    (release initialisedState).minSize = initialisedState.minSize ∧
    (release initialisedState).useShift = initialisedState.useShift ∧
    (release initialisedState).shiftNum = initialisedState.shiftNum ∧
    (release initialisedState).shiftDen = initialisedState.shiftDen ∧
    (release initialisedState).numTrees = initialisedState.numTrees ∧
    (release initialisedState).numFeatures = initialisedState.numFeatures :=
  claim10_theorem initialisedState rfl

end cuda

end tld
